import Mathlib

/-
Shallow embedding of the liboqs Python wrapper (src/oqs/wrapper.py).

Byte strings are modelled as lists of naturals; the native liboqs library is
an external collaborator, so its entry points appear as explicit function
parameters (or fields of a record of entry points).  Python exceptions become
the error side of an Except value; a Python function that can raise returns
Except PyErr.  ctypes buffer semantics (fixed-size buffers, zero padding,
ValueError on overflow) are embedded directly from the documented behaviour
of ctypes.create_string_buffer.
-/

/-- Byte strings (Python bytes / ctypes char buffers), one natural per byte. -/
abbrev Bytes := List Nat

/-- wrapper.py line 17: expected return value from native OQS functions. -/
def _OQS_SUCCESS : Int := 0

/-- The Python exceptions that wrapper.py can raise or propagate.
MechanismNotSupportedError and MechanismNotEnabledError are the two classes
defined in wrapper.py (lines 50-70); valueError models the ValueError that
ctypes.create_string_buffer raises on an oversized initializer;
attributeError models reading a never-assigned instance attribute;
runtimeError and osError model the two failure modes of library loading. -/
inductive PyErr where
  | mechanismNotSupported (alg_name : String)
  | mechanismNotEnabled (alg_name : String)
  | valueError
  | attributeError (attr : String)
  | runtimeError (msg : String)
  | osError
  deriving DecidableEq, Repr

/-- The Python exception classes relevant to wrapper.py, for modelling
isinstance-based exception handling.  baseException stands for the built-in
Exception root class. -/
inductive ExcClass where
  | baseException
  | valueErrorClass
  | attributeErrorClass
  | runtimeErrorClass
  | osErrorClass
  | mechanismNotSupportedClass
  | mechanismNotEnabledClass
  deriving DecidableEq, Repr

/-- The class of each exception value.  MechanismNotEnabledError instances
have class mechanismNotEnabledClass (wrapper.py line 61 declares the class). -/
def classOf : PyErr → ExcClass
  | PyErr.mechanismNotSupported _ => ExcClass.mechanismNotSupportedClass
  | PyErr.mechanismNotEnabled _ => ExcClass.mechanismNotEnabledClass
  | PyErr.valueError => ExcClass.valueErrorClass
  | PyErr.attributeError _ => ExcClass.attributeErrorClass
  | PyErr.runtimeError _ => ExcClass.runtimeErrorClass
  | PyErr.osError => ExcClass.osErrorClass

/-- The method-resolution chain of each class, most derived first.
wrapper.py line 61: class MechanismNotEnabledError(MechanismNotSupportedError),
and line 50: class MechanismNotSupportedError(Exception); the built-in classes
all derive from Exception. -/
def superclasses : ExcClass → List ExcClass
  | ExcClass.baseException => [ExcClass.baseException]
  | ExcClass.valueErrorClass => [ExcClass.valueErrorClass, ExcClass.baseException]
  | ExcClass.attributeErrorClass => [ExcClass.attributeErrorClass, ExcClass.baseException]
  | ExcClass.runtimeErrorClass => [ExcClass.runtimeErrorClass, ExcClass.baseException]
  | ExcClass.osErrorClass => [ExcClass.osErrorClass, ExcClass.baseException]
  | ExcClass.mechanismNotSupportedClass =>
      [ExcClass.mechanismNotSupportedClass, ExcClass.baseException]
  | ExcClass.mechanismNotEnabledClass =>
      [ExcClass.mechanismNotEnabledClass, ExcClass.mechanismNotSupportedClass,
       ExcClass.baseException]

/-- Python issubclass on the modelled hierarchy. -/
def isSubclass (c d : ExcClass) : Bool := (superclasses c).contains d

/-- Python isinstance: an except clause for class c catches exception e
exactly when isInstance e c holds. -/
def isInstance (e : PyErr) (c : ExcClass) : Bool := isSubclass (classOf e) c

/-- The alg_name attribute set by the two exception constructors
(wrapper.py lines 58 and 69); none for exceptions that lack it. -/
def excAlgName : PyErr → Option String
  | PyErr.mechanismNotSupported n => some n
  | PyErr.mechanismNotEnabled n => some n
  | _ => none

/-- The message attribute set by the two exception constructors
(wrapper.py lines 59 and 70), with the exact source text. -/
def excMessage : PyErr → Option String
  | PyErr.mechanismNotSupported n => some (n ++ " is not supported by OQS")
  | PyErr.mechanismNotEnabled n => some (n ++ " is not supported but not enabled by OQS")
  | _ => none

/-- ctypes.create_string_buffer(size): a zero-filled buffer of size bytes. -/
def create_string_buffer_size (size : Nat) : Bytes := List.replicate size 0

/-- ctypes.create_string_buffer(init, size): a buffer of exactly size bytes
holding init followed by zero padding; raises ValueError when init is longer
than size (the ctypes value setter rejects an oversized byte string). -/
def create_string_buffer_init (init : Bytes) (size : Nat) : Except PyErr Bytes :=
  if size < init.length then Except.error PyErr.valueError
  else Except.ok (init ++ List.replicate (size - init.length) 0)

/-- Python truthiness of an optional byte string (None and empty bytes are
falsy), used for the secret_key constructor parameter. -/
def pyTruthyBytes : Option Bytes → Bool
  | none => false
  | some k => !k.isEmpty

/-- Python truthiness of a str-or-None value (None and the empty string are
falsy), used for candidate library paths. -/
def pathTruthy : Option String → Bool
  | none => false
  | some s => !s.isEmpty

/-
Library Locator (wrapper.py lines 12-47).
-/

/-- The operating-system surface that _load_shared_obj consumes:
the platform test, the environment variable, ctypes.util.find_library,
os.curdir with os.path.join, os.path.exists, and LoadLibrary.
LoadLibrary returning none models an OSError raised by the loader. -/
structure OSEnv where
  is_windows : Bool
  environ_install_path : Option String
  find_library_oqs : Option String
  curdir : String
  path_join : String → String → String
  path_exists : String → Bool
  load_library : String → Option String

/-- wrapper.py line 12: platform-dependent library base name. -/
def LIBOQS_SHARED_OBJ (e : OSEnv) : String :=
  if e.is_windows then "oqs" else "liboqs.so"

/-- The candidate path list built by _load_shared_obj (lines 22-29):
the installation-path environment variable first when set, then the result
of find_library, then the library file name joined to the current directory.
Entries are Option String because find_library may return None. -/
def _load_shared_obj_paths (e : OSEnv) : List (Option String) :=
  (match e.environ_install_path with
   | some v => [some v]
   | none => []) ++
  [e.find_library_oqs, some (e.path_join e.curdir (LIBOQS_SHARED_OBJ e))]

/-- The candidate loop of _load_shared_obj (lines 32-37): take the first
candidate that is truthy and exists on disk and load it (propagating an
OSError from the loader); raise RuntimeError when no candidate qualifies. -/
def _load_shared_obj_go (e : OSEnv) : List (Option String) → Except PyErr String
  | [] => Except.error (PyErr.runtimeError "No liboqs.so found!")
  | p :: rest =>
      if pathTruthy p && e.path_exists (p.getD "") then
        match e.load_library (p.getD "") with
        | some lib => Except.ok lib
        | none => Except.error PyErr.osError
      else _load_shared_obj_go e rest

/-- wrapper.py _load_shared_obj (lines 20-37). -/
def _load_shared_obj (e : OSEnv) : Except PyErr String :=
  _load_shared_obj_go e (_load_shared_obj_paths e)

/-- Outcome of the module-level load attempt: a loaded library handle,
a hard process exit with a message, or an uncaught exception. -/
inductive InitResult where
  | loaded (lib : String)
  | exit (msg : String)
  | raised (e : PyErr)
  deriving DecidableEq, Repr

/-- wrapper.py lines 40-47: the module-level try block around
_load_shared_obj; OSError exits with one message, RuntimeError with the
other, anything else would propagate. -/
def wrapper_module_init (e : OSEnv) : InitResult :=
  match _load_shared_obj e with
  | Except.ok lib => InitResult.loaded lib
  | Except.error PyErr.osError => InitResult.exit "Could not load liboqs shared library"
  | Except.error (PyErr.runtimeError _) => InitResult.exit "No liboqs shared libraries found"
  | Except.error err => InitResult.raised err

/-- Specification helper (not from the source): the first candidate path that
is truthy and exists on disk, used to state the loader theorems. -/
def firstCandidate (e : OSEnv) : Option String :=
  (_load_shared_obj_paths e).findSome?
    (fun p => if pathTruthy p && e.path_exists (p.getD "") then p else none)

/-
Capability Registry (wrapper.py lines 181-199 for KEM, 318-336 for SIG).
-/

/-- The registry surface of the loaded native library: per-family mechanism
count, identifier lookup (returning undecoded bytes, as the native call
returns a C string), and the outcome of the enablement probe — whether
OQS_KEM_new / OQS_SIG_new yields a non-null context for a given name
(false also covers a ValueError raised during the probe). -/
structure LibOQS where
  OQS_KEM_alg_count : Nat
  OQS_KEM_alg_identifier : Nat → Bytes
  OQS_KEM_new_ok : String → Bool
  OQS_SIG_alg_count : Nat
  OQS_SIG_alg_identifier : Nat → Bytes
  OQS_SIG_new_ok : String → Bool

/-- wrapper.py is_KEM_enabled (lines 181-194): probe OQS_KEM_new; a non-null
context means enabled (the probe context is freed at once); a null context or
a ValueError means not enabled. The whole probe is the new_ok bit. -/
def is_KEM_enabled (lib : LibOQS) (alg_name : String) : Bool :=
  lib.OQS_KEM_new_ok alg_name

/-- wrapper.py is_sig_enabled (lines 318-331), same shape as is_KEM_enabled. -/
def is_sig_enabled (lib : LibOQS) (alg_name : String) : Bool :=
  lib.OQS_SIG_new_ok alg_name

/-- wrapper.py line 197: the raw identifier byte strings at indices
0..count-1, in index order. -/
def _KEM_alg_ids (lib : LibOQS) : List Bytes :=
  (List.range lib.OQS_KEM_alg_count).map lib.OQS_KEM_alg_identifier

/-- wrapper.py line 198: the supported KEM names, each identifier decoded to
text (decode is the Python bytes.decode, kept abstract). -/
def _supported_KEMs (lib : LibOQS) (decode : Bytes → String) : List String :=
  (_KEM_alg_ids lib).map decode

/-- wrapper.py line 199: the enabled KEM names, the supported names that pass
the enablement probe. -/
def _enabled_KEMs (lib : LibOQS) (decode : Bytes → String) : List String :=
  (_supported_KEMs lib decode).filter (is_KEM_enabled lib)

/-- wrapper.py line 334: the raw SIG identifier byte strings in index order. -/
def _sig_alg_ids (lib : LibOQS) : List Bytes :=
  (List.range lib.OQS_SIG_alg_count).map lib.OQS_SIG_alg_identifier

/-- wrapper.py line 335: the supported SIG names. -/
def _supported_sigs (lib : LibOQS) (decode : Bytes → String) : List String :=
  (_sig_alg_ids lib).map decode

/-- wrapper.py line 336: the enabled SIG names. -/
def _enabled_sigs (lib : LibOQS) (decode : Bytes → String) : List String :=
  (_supported_sigs lib decode).filter (is_sig_enabled lib)

/-
Native Handle Wrapper, KEM family (wrapper.py lines 77-174).
-/

/-- A dynamically typed Python return value, for methods that return either
a byte string or the int sentinel 0 depending on the native status. -/
inductive PyValue where
  | pybytes (b : Bytes)
  | pyint (n : Int)
  deriving DecidableEq, Repr

/-- The fixed-layout metadata read from a live OQS_KEM native context
(the _fields_ of the ctypes structure, lines 82-94; the three callback
pointers are opaque and omitted). -/
structure KEMDetails where
  method_name : String
  alg_version : String
  claimed_nist_level : Nat
  ind_cca : Nat
  length_public_key : Nat
  length_secret_key : Nat
  length_ciphertext : Nat
  length_shared_secret : Nat
  deriving DecidableEq, Repr

/-- The managed state of one OQS_KEM wrapper instance: the requested name
(line 103), the context metadata (lines 113-121), the optional held secret
key buffer, and an instrumentation counter free_count recording how many
times the native OQS_KEM_free routine has been invoked on this context
(the source keeps no such counter — each call of the free method performs
one native free, which the counter makes observable). -/
structure KEMInstance where
  alg_name : String
  details : KEMDetails
  secret_key : Option Bytes
  free_count : Nat
  deriving DecidableEq, Repr

/-- OQS_KEM.__init__ (wrapper.py lines 96-124): validate alg_name against the
enabled list, raising MechanismNotEnabledError when it is merely supported and
MechanismNotSupportedError otherwise; then obtain the native context and read
its metadata (new models OQS_KEM_new plus the contents reads, total because
for an enabled algorithm the probe has already shown the context is non-null);
finally, when a truthy secret_key is supplied, copy it into a buffer of
exactly length_secret_key bytes (an oversized key raises ValueError). -/
def OQS_KEM.mk (enabled supported : List String) (new : String → KEMDetails)
    (alg_name : String) (secret_key : Option Bytes) : Except PyErr KEMInstance :=
  if alg_name ∉ enabled then
    if alg_name ∈ supported then
      Except.error (PyErr.mechanismNotEnabled alg_name)
    else
      Except.error (PyErr.mechanismNotSupported alg_name)
  else
    let d := new alg_name
    if pyTruthyBytes secret_key then
      match create_string_buffer_init (secret_key.getD []) d.length_secret_key with
      | Except.ok buf =>
          Except.ok { alg_name := alg_name, details := d, secret_key := some buf,
                      free_count := 0 }
      | Except.error err => Except.error err
    else
      Except.ok { alg_name := alg_name, details := d, secret_key := none,
                  free_count := 0 }

/-- OQS_KEM.generate_keypair (wrapper.py lines 132-140): allocate a zero
public-key buffer of length_public_key bytes, rebind self.secret_key to a
fresh zero buffer of length_secret_key bytes, call the native keypair routine
with both buffers by reference, and return the public-key buffer bytes on
status 0 and the Python int 0 otherwise.  keypair models OQS_KEM_keypair:
it receives the two buffer contents and returns the status together with the
final contents of the two out-buffers. -/
def OQS_KEM.generate_keypair (s : KEMInstance)
    (keypair : Bytes → Bytes → Int × Bytes × Bytes) : KEMInstance × PyValue :=
  let public_key := create_string_buffer_size s.details.length_public_key
  let secret_key := create_string_buffer_size s.details.length_secret_key
  let r := keypair public_key secret_key
  ({ s with secret_key := some r.2.2 },
   if r.1 = _OQS_SUCCESS then PyValue.pybytes r.2.1 else PyValue.pyint 0)

/-- OQS_KEM.export_secret_key (wrapper.py lines 142-144): bytes(self.secret_key).
When the attribute was never assigned (no key generated and none supplied),
Python raises AttributeError; the none state models exactly that. -/
def OQS_KEM.export_secret_key (s : KEMInstance) : Except PyErr Bytes :=
  match s.secret_key with
  | some sk => Except.ok sk
  | none => Except.error (PyErr.attributeError "secret_key")

/-- OQS_KEM.encap_secret (wrapper.py lines 146-156): copy the peer public key
into a length_public_key buffer (ValueError when it is longer), allocate zero
ciphertext and shared-secret buffers, call the native encapsulation routine,
and return the tuple

  bytes(ciphertext), bytes(shared_secret) if _rv == _OQS_SUCCESS else 0

whose conditional, by Python operator precedence, governs only the second
element.  encaps models OQS_KEM_encaps: it receives the ciphertext buffer,
the shared-secret buffer and the public-key buffer and returns the status
with the final contents of the two out-buffers. -/
def OQS_KEM.encap_secret (s : KEMInstance)
    (encaps : Bytes → Bytes → Bytes → Int × Bytes × Bytes)
    (public_key : Bytes) : Except PyErr (Bytes × PyValue) :=
  match create_string_buffer_init public_key s.details.length_public_key with
  | Except.error err => Except.error err
  | Except.ok my_public_key =>
      let ciphertext := create_string_buffer_size s.details.length_ciphertext
      let shared_secret := create_string_buffer_size s.details.length_shared_secret
      let r := encaps ciphertext shared_secret my_public_key
      Except.ok (r.2.1,
        if r.1 = _OQS_SUCCESS then PyValue.pybytes r.2.2 else PyValue.pyint 0)

/-- OQS_KEM.free (wrapper.py lines 169-171): unconditionally invoke the
native OQS_KEM_free routine on the context — there is no released flag and
no guard, so each call performs one more native free (free_count tracks the
number of native frees, nothing in the state is cleared). -/
def OQS_KEM.free (s : KEMInstance) : KEMInstance :=
  { s with free_count := s.free_count + 1 }

/-
Native Handle Wrapper, SIG family (wrapper.py lines 216-311).
-/

/-- The fixed-layout metadata of a live OQS_SIG native context
(the _fields_ of the ctypes structure, lines 219-230). -/
structure SIGDetails where
  method_name : String
  alg_version : String
  claimed_nist_level : Nat
  euf_cma : Nat
  length_public_key : Nat
  length_secret_key : Nat
  length_signature : Nat
  deriving DecidableEq, Repr

/-- The managed state of one OQS_SIG wrapper instance (the SIG __init__ does
not store alg_name); free_count instruments native OQS_SIG_free calls as in
KEMInstance. -/
structure SIGInstance where
  details : SIGDetails
  secret_key : Option Bytes
  free_count : Nat
  deriving DecidableEq, Repr

/-- OQS_SIG.__init__ (wrapper.py lines 232-255): the same validation
trichotomy as the KEM constructor against the SIG lists, then the context
metadata read and the optional secret-key copy. -/
def OQS_SIG.mk (enabled supported : List String) (new : String → SIGDetails)
    (alg_name : String) (secret_key : Option Bytes) : Except PyErr SIGInstance :=
  if alg_name ∉ enabled then
    if alg_name ∈ supported then
      Except.error (PyErr.mechanismNotEnabled alg_name)
    else
      Except.error (PyErr.mechanismNotSupported alg_name)
  else
    let d := new alg_name
    if pyTruthyBytes secret_key then
      match create_string_buffer_init (secret_key.getD []) d.length_secret_key with
      | Except.ok buf =>
          Except.ok { details := d, secret_key := some buf, free_count := 0 }
      | Except.error err => Except.error err
    else
      Except.ok { details := d, secret_key := none, free_count := 0 }

/-- OQS_SIG.generate_keypair (wrapper.py lines 263-271), identical in shape
to the KEM version. -/
def OQS_SIG.generate_keypair (s : SIGInstance)
    (keypair : Bytes → Bytes → Int × Bytes × Bytes) : SIGInstance × PyValue :=
  let public_key := create_string_buffer_size s.details.length_public_key
  let secret_key := create_string_buffer_size s.details.length_secret_key
  let r := keypair public_key secret_key
  ({ s with secret_key := some r.2.2 },
   if r.1 = _OQS_SUCCESS then PyValue.pybytes r.2.1 else PyValue.pyint 0)

/-- OQS_SIG.export_secret_key (wrapper.py lines 273-275), identical in shape
to the KEM version. -/
def OQS_SIG.export_secret_key (s : SIGInstance) : Except PyErr Bytes :=
  match s.secret_key with
  | some sk => Except.ok sk
  | none => Except.error (PyErr.attributeError "secret_key")

/-- OQS_SIG.verify (wrapper.py lines 290-304): copy message and signature
into buffers sized to their exact lengths (these copies cannot fail), copy
the public key into a length_public_key buffer (ValueError when it is
longer), call the native verification routine, and return True exactly when
the status is 0.  nat_verify models OQS_SIG_verify with arguments in source
order: message buffer, message length, signature buffer, signature length,
public-key buffer. -/
def OQS_SIG.verify (s : SIGInstance)
    (nat_verify : Bytes → Nat → Bytes → Nat → Bytes → Int)
    (message signature public_key : Bytes) : Except PyErr Bool :=
  match create_string_buffer_init message message.length with
  | Except.error err => Except.error err
  | Except.ok my_message =>
    let message_len := my_message.length
    match create_string_buffer_init signature signature.length with
    | Except.error err => Except.error err
    | Except.ok my_signature =>
      let sig_len := my_signature.length
      match create_string_buffer_init public_key s.details.length_public_key with
      | Except.error err => Except.error err
      | Except.ok my_public_key =>
          let r := nat_verify my_message message_len my_signature sig_len my_public_key
          Except.ok (if r = _OQS_SUCCESS then true else false)

/-- OQS_SIG.free (wrapper.py lines 306-308): unconditionally invoke the
native OQS_SIG_free routine, with no released flag and no guard. -/
def OQS_SIG.free (s : SIGInstance) : SIGInstance :=
  { s with free_count := s.free_count + 1 }

/-
Concrete fixtures used to evaluate the embedded functions on closed inputs.
-/

/-- A concrete KEM mechanism description with small distinct lengths. -/
def testKEMDetails : KEMDetails :=
  { method_name := "Kyber512", alg_version := "1.0", claimed_nist_level := 1,
    ind_cca := 1, length_public_key := 3, length_secret_key := 4,
    length_ciphertext := 5, length_shared_secret := 2 }

/-- A concrete SIG mechanism description with small distinct lengths. -/
def testSIGDetails : SIGDetails :=
  { method_name := "Dilithium2", alg_version := "1.0", claimed_nist_level := 2,
    euf_cma := 1, length_public_key := 2, length_secret_key := 4,
    length_signature := 3 }

/-- A live KEM instance holding no secret key. -/
def testKem : KEMInstance :=
  { alg_name := "Kyber512", details := testKEMDetails, secret_key := none,
    free_count := 0 }

/-- A live KEM instance holding a secret key. -/
def testKemWithKey : KEMInstance :=
  { alg_name := "Kyber512", details := testKEMDetails,
    secret_key := some [9, 9, 9, 9], free_count := 0 }

/-- A live SIG instance holding no secret key. -/
def testSig : SIGInstance :=
  { details := testSIGDetails, secret_key := none, free_count := 0 }

/-- A live SIG instance holding a secret key. -/
def testSigWithKey : SIGInstance :=
  { details := testSIGDetails, secret_key := some [8, 8, 8, 8],
    free_count := 0 }

/-- A native keypair routine that always succeeds and leaves the out-buffers
as it received them. -/
def testKeypairOk : Bytes → Bytes → Int × Bytes × Bytes :=
  fun a b => (0, a, b)

/-- A native encapsulation routine that always fails with status 1 and leaves
the out-buffers as it received them. -/
def testEncapsFail : Bytes → Bytes → Bytes → Int × Bytes × Bytes :=
  fun c ss _ => (1, c, ss)

/-- A native keypair routine that always fails with status 1 and leaves the
out-buffers as it received them. -/
def testKeypairFail : Bytes → Bytes → Int × Bytes × Bytes :=
  fun a b => (1, a, b)

/-- A native verification routine that always reports success. -/
def testVerifyOk : Bytes → Nat → Bytes → Nat → Bytes → Int :=
  fun _ _ _ _ _ => 0

/-- C9: MechanismNotEnabledError is a subclass of MechanismNotSupportedError,
so every except clause catching the not-supported error (any class c of which
it is an instance) also catches the not-enabled error; both exception types
store the offending algorithm name in alg_name and a message that contains
it. -/
theorem C9_exception_taxonomy (n m : String) (c : ExcClass)
    (h : isInstance (PyErr.mechanismNotSupported n) c = true) :
    isInstance (PyErr.mechanismNotEnabled m) c = true ∧
    isSubclass ExcClass.mechanismNotEnabledClass
      ExcClass.mechanismNotSupportedClass = true ∧
    excAlgName (PyErr.mechanismNotSupported n) = some n ∧
    excAlgName (PyErr.mechanismNotEnabled n) = some n ∧
    (∃ t, excMessage (PyErr.mechanismNotSupported n) = some (n ++ t)) ∧
    (∃ t, excMessage (PyErr.mechanismNotEnabled n) = some (n ++ t)) := by
  refine ⟨?_, by decide, rfl, rfl, ⟨_, rfl⟩, ⟨_, rfl⟩⟩
  have key : ∀ d, isSubclass ExcClass.mechanismNotSupportedClass d = true →
      isSubclass ExcClass.mechanismNotEnabledClass d = true := by
    intro d
    cases d <;> decide
  exact key c h

/-- Witness for C9 at the class MechanismNotSupportedError itself. -/
theorem C9_exception_taxonomy_witness :
    isInstance (PyErr.mechanismNotEnabled "B")
      ExcClass.mechanismNotSupportedClass = true ∧
    isSubclass ExcClass.mechanismNotEnabledClass
      ExcClass.mechanismNotSupportedClass = true ∧
    excAlgName (PyErr.mechanismNotSupported "A") = some "A" ∧
    excAlgName (PyErr.mechanismNotEnabled "A") = some "A" ∧
    (∃ t, excMessage (PyErr.mechanismNotSupported "A") = some ("A" ++ t)) ∧
    (∃ t, excMessage (PyErr.mechanismNotEnabled "A") = some ("A" ++ t)) :=
  C9_exception_taxonomy "A" "B" ExcClass.mechanismNotSupportedClass (by decide)

/-- C3 as stated is false on the code: the free method carries no released
flag, so a second release on the same instance performs a second native free
(free_count reaches 2), and an operation invoked after release still runs
against the handle instead of failing fast — here export_secret_key after a
release still returns the held key. -/
theorem C3_counterexample :
    ((OQS_KEM.free (OQS_KEM.free testKem)).free_count = 2) ∧
    ((OQS_SIG.free (OQS_SIG.free testSig)).free_count = 2) ∧
    OQS_KEM.export_secret_key (OQS_KEM.free testKemWithKey) =
      Except.ok [9, 9, 9, 9] ∧
    OQS_SIG.export_secret_key (OQS_SIG.free testSigWithKey) =
      Except.ok [8, 8, 8, 8] := by
  refine ⟨rfl, rfl, rfl, rfl⟩

/-- C3 amended: each call of the release method unconditionally performs one
more native free on the context (so n calls free it n times and a double
release double-frees), and every other operation behaves after a release
exactly as before it — nothing fails fast. -/
theorem C3_free_unguarded (s : KEMInstance) (t : SIGInstance)
    (kemKeypair : Bytes → Bytes → Int × Bytes × Bytes)
    (encaps : Bytes → Bytes → Bytes → Int × Bytes × Bytes)
    (nat_verify : Bytes → Nat → Bytes → Nat → Bytes → Int)
    (public_key message signature : Bytes) :
    (OQS_KEM.free s).free_count = s.free_count + 1 ∧
    (OQS_SIG.free t).free_count = t.free_count + 1 ∧
    OQS_KEM.export_secret_key (OQS_KEM.free s) = OQS_KEM.export_secret_key s ∧
    OQS_SIG.export_secret_key (OQS_SIG.free t) = OQS_SIG.export_secret_key t ∧
    OQS_KEM.encap_secret (OQS_KEM.free s) encaps public_key =
      OQS_KEM.encap_secret s encaps public_key ∧
    (OQS_KEM.generate_keypair (OQS_KEM.free s) kemKeypair).2 =
      (OQS_KEM.generate_keypair s kemKeypair).2 ∧
    OQS_SIG.verify (OQS_SIG.free t) nat_verify message signature public_key =
      OQS_SIG.verify t nat_verify message signature public_key :=
  ⟨rfl, rfl, rfl, rfl, rfl, rfl, rfl⟩

/-- C7: on an instance whose secret key was never established (the attribute
was never assigned, which is exactly the state produced by construction
without a supplied key and before any keypair generation), export_secret_key
fails with a managed AttributeError rather than reaching the native layer;
on an instance holding a key it returns exactly that key. -/
theorem C7_export_secret_key (s : KEMInstance) (t : SIGInstance) (k j : Bytes)
    (enabledK supportedK : List String) (newK : String → KEMDetails)
    (enabledS supportedS : List String) (newS : String → SIGDetails)
    (n m : String) (i : KEMInstance) (i2 : SIGInstance) :
    (s.secret_key = none →
       OQS_KEM.export_secret_key s =
         Except.error (PyErr.attributeError "secret_key")) ∧
    (s.secret_key = some k → OQS_KEM.export_secret_key s = Except.ok k) ∧
    (t.secret_key = none →
       OQS_SIG.export_secret_key t =
         Except.error (PyErr.attributeError "secret_key")) ∧
    (t.secret_key = some j → OQS_SIG.export_secret_key t = Except.ok j) ∧
    (OQS_KEM.mk enabledK supportedK newK n none = Except.ok i →
       i.secret_key = none) ∧
    (OQS_SIG.mk enabledS supportedS newS m none = Except.ok i2 →
       i2.secret_key = none) := by
  refine ⟨?_, ?_, ?_, ?_, ?_, ?_⟩
  · intro h; simp [OQS_KEM.export_secret_key, h]
  · intro h; simp [OQS_KEM.export_secret_key, h]
  · intro h; simp [OQS_SIG.export_secret_key, h]
  · intro h; simp [OQS_SIG.export_secret_key, h]
  · intro h
    unfold OQS_KEM.mk at h
    split at h
    · split at h <;> exact Except.noConfusion h
    · simp only [pyTruthyBytes, Bool.false_eq_true, if_false] at h
      cases h
      rfl
  · intro h
    unfold OQS_SIG.mk at h
    split at h
    · split at h <;> exact Except.noConfusion h
    · simp only [pyTruthyBytes, Bool.false_eq_true, if_false] at h
      cases h
      rfl

/-- Witness for C7: the no-key instances fail with AttributeError and the
keyed instances return their keys. -/
theorem C7_export_secret_key_witness :
    OQS_KEM.export_secret_key testKem =
      Except.error (PyErr.attributeError "secret_key") ∧
    OQS_KEM.export_secret_key testKemWithKey = Except.ok [9, 9, 9, 9] ∧
    OQS_SIG.export_secret_key testSig =
      Except.error (PyErr.attributeError "secret_key") ∧
    OQS_SIG.export_secret_key testSigWithKey = Except.ok [8, 8, 8, 8] := by
  have h1 := C7_export_secret_key testKem testSig [9, 9, 9, 9] [8, 8, 8, 8]
    [] [] (fun _ => testKEMDetails) [] [] (fun _ => testSIGDetails)
    "A" "B" testKem testSig
  have h2 := C7_export_secret_key testKemWithKey testSigWithKey
    [9, 9, 9, 9] [8, 8, 8, 8]
    [] [] (fun _ => testKEMDetails) [] [] (fun _ => testSIGDetails)
    "A" "B" testKem testSig
  exact ⟨h1.1 rfl, h2.2.1 rfl, h1.2.2.1 rfl, h2.2.2.2.1 rfl⟩

/-- C1: handle construction validates the algorithm name against the family
lists — a name in enabled constructs successfully; a name outside enabled but
inside supported fails with MechanismNotEnabledError carrying the name (never
MechanismNotSupportedError); a name outside supported (with enabled a subset
of supported, the registry invariant) fails with MechanismNotSupportedError
carrying the name.  The KEM and SIG constructors share the trichotomy. -/
theorem C1_construction_trichotomy
    (enabledK supportedK : List String) (newK : String → KEMDetails)
    (enabledS supportedS : List String) (newS : String → SIGDetails)
    (n : String) (sk : Option Bytes) :
    (n ∈ enabledK →
       ∃ i, OQS_KEM.mk enabledK supportedK newK n none = Except.ok i) ∧
    (n ∉ enabledK → n ∈ supportedK →
       OQS_KEM.mk enabledK supportedK newK n sk =
         Except.error (PyErr.mechanismNotEnabled n)) ∧
    (enabledK ⊆ supportedK → n ∉ supportedK →
       OQS_KEM.mk enabledK supportedK newK n sk =
         Except.error (PyErr.mechanismNotSupported n)) ∧
    (n ∈ enabledS →
       ∃ i, OQS_SIG.mk enabledS supportedS newS n none = Except.ok i) ∧
    (n ∉ enabledS → n ∈ supportedS →
       OQS_SIG.mk enabledS supportedS newS n sk =
         Except.error (PyErr.mechanismNotEnabled n)) ∧
    (enabledS ⊆ supportedS → n ∉ supportedS →
       OQS_SIG.mk enabledS supportedS newS n sk =
         Except.error (PyErr.mechanismNotSupported n)) := by
  refine ⟨?_, ?_, ?_, ?_, ?_, ?_⟩
  · intro h
    refine ⟨{ alg_name := n, details := newK n, secret_key := none,
              free_count := 0 }, ?_⟩
    simp [OQS_KEM.mk, h, pyTruthyBytes]
  · intro h hs
    simp [OQS_KEM.mk, h, hs]
  · intro hsub hns
    have h : n ∉ enabledK := fun hmem => hns (hsub hmem)
    simp [OQS_KEM.mk, h, hns]
  · intro h
    refine ⟨{ details := newS n, secret_key := none, free_count := 0 }, ?_⟩
    simp [OQS_SIG.mk, h, pyTruthyBytes]
  · intro h hs
    simp [OQS_SIG.mk, h, hs]
  · intro hsub hns
    have h : n ∉ enabledS := fun hmem => hns (hsub hmem)
    simp [OQS_SIG.mk, h, hns]

/-- Witness for C1 on concrete lists: the name "B" is supported but not
enabled and so fails with MechanismNotEnabledError. -/
theorem C1_construction_trichotomy_witness :
    OQS_KEM.mk ["A"] ["A", "B"] (fun _ => testKEMDetails) "B" none =
      Except.error (PyErr.mechanismNotEnabled "B") ∧
    OQS_SIG.mk ["A"] ["A", "B"] (fun _ => testSIGDetails) "C" none =
      Except.error (PyErr.mechanismNotSupported "C") := by
  have h := C1_construction_trichotomy ["A"] ["A", "B"] (fun _ => testKEMDetails)
    ["A"] ["A", "B"] (fun _ => testSIGDetails) "B" none
  have h2 := C1_construction_trichotomy ["A"] ["A", "B"] (fun _ => testKEMDetails)
    ["A"] ["A", "B"] (fun _ => testSIGDetails) "C" none
  exact ⟨h.2.1 (by decide) (by decide), h2.2.2.2.2.2 (by decide) (by decide)⟩

/-- A concrete native registry with two KEM mechanisms (one enabled) and two
SIG mechanisms (one enabled). -/
def testLib : LibOQS :=
  { OQS_KEM_alg_count := 2,
    OQS_KEM_alg_identifier := fun i => [65 + i],
    OQS_KEM_new_ok := fun s => s == "A",
    OQS_SIG_alg_count := 2,
    OQS_SIG_alg_identifier := fun i => [67 + i],
    OQS_SIG_new_ok := fun s => s == "C" }

/-- A concrete decode from identifier bytes to text, for the registry
fixture: byte 65 is "A", 66 is "B", 67 is "C", anything else is "D". -/
def testDecode : Bytes → String :=
  fun b => if b = [65] then "A" else if b = [66] then "B"
           else if b = [67] then "C" else "D"

/-- C6: for both families, the supported list is exactly the decoded
identifiers at indices 0..count-1 in index order, the enabled list is the
subsequence of supported whose members pass the enablement probe, and
consequently enabled is a subset of supported. -/
theorem C6_capability_lists (lib : LibOQS) (decode : Bytes → String) :
    _enabled_KEMs lib decode ⊆ _supported_KEMs lib decode ∧
    List.Sublist (_enabled_KEMs lib decode) (_supported_KEMs lib decode) ∧
    (_supported_KEMs lib decode).length = lib.OQS_KEM_alg_count ∧
    (∀ i, i < lib.OQS_KEM_alg_count →
       (_supported_KEMs lib decode)[i]? =
         some (decode (lib.OQS_KEM_alg_identifier i))) ∧
    (∀ a, a ∈ _enabled_KEMs lib decode ↔
       a ∈ _supported_KEMs lib decode ∧ is_KEM_enabled lib a = true) ∧
    _enabled_sigs lib decode ⊆ _supported_sigs lib decode ∧
    List.Sublist (_enabled_sigs lib decode) (_supported_sigs lib decode) ∧
    (_supported_sigs lib decode).length = lib.OQS_SIG_alg_count ∧
    (∀ i, i < lib.OQS_SIG_alg_count →
       (_supported_sigs lib decode)[i]? =
         some (decode (lib.OQS_SIG_alg_identifier i))) ∧
    (∀ a, a ∈ _enabled_sigs lib decode ↔
       a ∈ _supported_sigs lib decode ∧ is_sig_enabled lib a = true) := by
  refine ⟨(List.filter_sublist _).subset, List.filter_sublist _, ?_, ?_, ?_,
          (List.filter_sublist _).subset, List.filter_sublist _, ?_, ?_, ?_⟩
  · simp [_supported_KEMs, _KEM_alg_ids]
  · intro i h
    simp [_supported_KEMs, _KEM_alg_ids, List.getElem?_map, List.getElem?_range, h]
  · intro a
    simp [_enabled_KEMs, List.mem_filter]
  · simp [_supported_sigs, _sig_alg_ids]
  · intro i h
    simp [_supported_sigs, _sig_alg_ids, List.getElem?_map, List.getElem?_range, h]
  · intro a
    simp [_enabled_sigs, List.mem_filter]

/-- Witness for C6 on the concrete registry fixture. -/
theorem C6_capability_lists_witness :
    _enabled_KEMs testLib testDecode ⊆ _supported_KEMs testLib testDecode ∧
    (_supported_KEMs testLib testDecode)[0]? = some "A" ∧
    (_supported_sigs testLib testDecode)[1]? = some "D" := by
  have h := C6_capability_lists testLib testDecode
  refine ⟨h.1, ?_, ?_⟩
  · have := h.2.2.2.1 0 (by decide)
    simpa using this
  · have := h.2.2.2.2.2.2.2.2.1 1 (by decide)
    simpa using this

/-- C5: generate_keypair allocates a public-key buffer of length_public_key
bytes and a secret-key buffer of length_secret_key bytes (the zero buffers
handed to the native routine below); r and q stand for the native keypair
call on those buffers, with the by-reference law that the out-buffers keep
their allocated sizes.  On status 0 the call returns the public-key bytes
(of length length_public_key) and the new state holds the written secret key
(of length length_secret_key), replacing any prior one; on non-zero status
the call returns the Python int 0 instead of raising. -/
theorem C5_generate_keypair (s : KEMInstance) (t : SIGInstance)
    (kemKeypair sigKeypair : Bytes → Bytes → Int × Bytes × Bytes)
    (r q : Int × Bytes × Bytes)
    (hr : r = kemKeypair (create_string_buffer_size s.details.length_public_key)
                         (create_string_buffer_size s.details.length_secret_key))
    (hq : q = sigKeypair (create_string_buffer_size t.details.length_public_key)
                         (create_string_buffer_size t.details.length_secret_key))
    (hr1 : (r.2.1).length = s.details.length_public_key)
    (hr2 : (r.2.2).length = s.details.length_secret_key)
    (hq1 : (q.2.1).length = t.details.length_public_key)
    (hq2 : (q.2.2).length = t.details.length_secret_key) :
    (r.1 = _OQS_SUCCESS →
       OQS_KEM.generate_keypair s kemKeypair =
         ({ s with secret_key := some r.2.2 }, PyValue.pybytes r.2.1) ∧
       (r.2.1).length = s.details.length_public_key ∧
       (r.2.2).length = s.details.length_secret_key) ∧
    (r.1 ≠ _OQS_SUCCESS →
       (OQS_KEM.generate_keypair s kemKeypair).2 = PyValue.pyint 0) ∧
    (q.1 = _OQS_SUCCESS →
       OQS_SIG.generate_keypair t sigKeypair =
         ({ t with secret_key := some q.2.2 }, PyValue.pybytes q.2.1) ∧
       (q.2.1).length = t.details.length_public_key ∧
       (q.2.2).length = t.details.length_secret_key) ∧
    (q.1 ≠ _OQS_SUCCESS →
       (OQS_SIG.generate_keypair t sigKeypair).2 = PyValue.pyint 0) := by
  subst hr hq
  refine ⟨?_, ?_, ?_, ?_⟩
  · intro h
    refine ⟨?_, hr1, hr2⟩
    simp [OQS_KEM.generate_keypair, h]
  · intro h
    simp [OQS_KEM.generate_keypair, h]
  · intro h
    refine ⟨?_, hq1, hq2⟩
    simp [OQS_SIG.generate_keypair, h]
  · intro h
    simp [OQS_SIG.generate_keypair, h]

/-- Witness for C5 with a native routine that succeeds and leaves the
zero-filled buffers untouched. -/
theorem C5_generate_keypair_witness :
    OQS_KEM.generate_keypair testKem testKeypairOk =
      ({ testKem with secret_key := some [0, 0, 0, 0] },
       PyValue.pybytes [0, 0, 0]) ∧
    ([0, 0, 0] : Bytes).length = testKem.details.length_public_key ∧
    ([0, 0, 0, 0] : Bytes).length = testKem.details.length_secret_key := by
  have h := C5_generate_keypair testKem testSig testKeypairOk testKeypairOk
    (0, [0, 0, 0], [0, 0, 0, 0]) (0, [0, 0], [0, 0, 0, 0])
    (by decide) (by decide) (by decide) (by decide) (by decide) (by decide)
  exact h.1 rfl

/-- C10: generate_keypair rebinds the held secret key to a fresh zero-filled
buffer before the native keypair routine runs, so after the call — for every
native status, including failure — the held key is the native write into that
fresh buffer, and the resulting key state does not depend on the previously
held key: two instances with the same details end in the same key state. -/
theorem C10_keypair_discards_prior_key (s s2 : KEMInstance)
    (t t2 : SIGInstance)
    (kemKeypair sigKeypair : Bytes → Bytes → Int × Bytes × Bytes)
    (hs : s.details = s2.details) (ht : t.details = t2.details) :
    ((OQS_KEM.generate_keypair s kemKeypair).1).secret_key =
      some ((kemKeypair
        (create_string_buffer_size s.details.length_public_key)
        (create_string_buffer_size s.details.length_secret_key)).2.2) ∧
    ((OQS_KEM.generate_keypair s kemKeypair).1).secret_key =
      ((OQS_KEM.generate_keypair s2 kemKeypair).1).secret_key ∧
    ((OQS_SIG.generate_keypair t sigKeypair).1).secret_key =
      some ((sigKeypair
        (create_string_buffer_size t.details.length_public_key)
        (create_string_buffer_size t.details.length_secret_key)).2.2) ∧
    ((OQS_SIG.generate_keypair t sigKeypair).1).secret_key =
      ((OQS_SIG.generate_keypair t2 sigKeypair).1).secret_key := by
  refine ⟨rfl, ?_, rfl, ?_⟩
  · simp [OQS_KEM.generate_keypair, hs]
  · simp [OQS_SIG.generate_keypair, ht]

/-- Witness for C10: an instance holding a key and one holding none, with the
same details, end in the same (zero-buffer) key state after generate_keypair
with a failing native routine. -/
theorem C10_keypair_discards_prior_key_witness :
    ((OQS_KEM.generate_keypair testKemWithKey testKeypairFail).1).secret_key =
      some [0, 0, 0, 0] ∧
    ((OQS_KEM.generate_keypair testKemWithKey testKeypairFail).1).secret_key =
      ((OQS_KEM.generate_keypair testKem testKeypairFail).1).secret_key := by
  have h := C10_keypair_discards_prior_key testKemWithKey testKem
    testSigWithKey testSig testKeypairFail testKeypairFail rfl rfl
  exact ⟨h.1, h.2.1⟩

/-- C2: encap_secret copies the peer public key into a length_public_key
buffer, allocates zero ciphertext and shared-secret buffers, and calls the
native encapsulation routine (r, subject to the by-reference law that the
out-buffers keep their sizes).  On status 0 it returns the pair of the
ciphertext bytes (length length_ciphertext) and the shared-secret bytes
(length length_shared_secret); on non-zero status the conditional in the
return expression governs only the second tuple element, so the result is
still a pair whose first element is the ciphertext-buffer bytes and whose
second element is the Python int 0. -/
theorem C2_encap_secret (s : KEMInstance)
    (encaps : Bytes → Bytes → Bytes → Int × Bytes × Bytes)
    (public_key buf : Bytes) (r : Int × Bytes × Bytes)
    (hfit : public_key.length ≤ s.details.length_public_key)
    (hbuf : buf = public_key ++
       List.replicate (s.details.length_public_key - public_key.length) 0)
    (hr : r = encaps (create_string_buffer_size s.details.length_ciphertext)
                     (create_string_buffer_size s.details.length_shared_secret)
                     buf)
    (hlen1 : (r.2.1).length = s.details.length_ciphertext)
    (hlen2 : (r.2.2).length = s.details.length_shared_secret) :
    (r.1 = _OQS_SUCCESS →
       OQS_KEM.encap_secret s encaps public_key =
         Except.ok (r.2.1, PyValue.pybytes r.2.2) ∧
       (r.2.1).length = s.details.length_ciphertext ∧
       (r.2.2).length = s.details.length_shared_secret) ∧
    (r.1 ≠ _OQS_SUCCESS →
       OQS_KEM.encap_secret s encaps public_key =
         Except.ok (r.2.1, PyValue.pyint 0) ∧
       (r.2.1).length = s.details.length_ciphertext) := by
  subst hbuf hr
  have hcopy : create_string_buffer_init public_key s.details.length_public_key =
      Except.ok (public_key ++
        List.replicate (s.details.length_public_key - public_key.length) 0) := by
    simp [create_string_buffer_init, Nat.not_lt.mpr hfit]
  constructor
  · intro h
    refine ⟨?_, hlen1, hlen2⟩
    simp [OQS_KEM.encap_secret, hcopy, h]
  · intro h
    refine ⟨?_, hlen1⟩
    simp [OQS_KEM.encap_secret, hcopy, h]

/-- Witness for C2 on the failure path: a native routine returning status 1
still yields a pair of the (zero) ciphertext-buffer bytes and the int 0. -/
theorem C2_encap_secret_witness :
    OQS_KEM.encap_secret testKem testEncapsFail [7, 7, 7] =
      Except.ok ([0, 0, 0, 0, 0], PyValue.pyint 0) ∧
    ([0, 0, 0, 0, 0] : Bytes).length = testKem.details.length_ciphertext := by
  have h := C2_encap_secret testKem testEncapsFail [7, 7, 7] [7, 7, 7]
    (1, [0, 0, 0, 0, 0], [0, 0]) (by decide) (by decide) (by decide)
    (by decide) (by decide)
  exact h.2 (by decide)

/-- C4 as stated is false on the code: a public key longer than
length_public_key makes the fixed-size buffer copy raise ValueError before
the native verification call, instead of verify returning false.  Here
length_public_key is 2 and the supplied key has 3 bytes. -/
theorem C4_counterexample :
    OQS_SIG.verify testSig testVerifyOk [1] [2] [0, 0, 0] =
      Except.error PyErr.valueError ∧
    OQS_SIG.verify testSig testVerifyOk [1] [2] [0, 0, 0] ≠
      Except.ok false := by
  exact ⟨rfl, fun hc => Except.noConfusion hc⟩

/-- C4 amended: whenever the supplied public key is at most
length_public_key bytes, verify never raises and returns exactly the boolean
(native status = 0); the message and signature buffers are sized to their own
lengths, so those inputs never raise at any length.  A public key longer than
length_public_key instead raises ValueError from the buffer copy. -/
theorem C4_verify_boolean (s : SIGInstance)
    (nat_verify : Bytes → Nat → Bytes → Nat → Bytes → Int)
    (message signature public_key : Bytes)
    (h : public_key.length ≤ s.details.length_public_key) :
    OQS_SIG.verify s nat_verify message signature public_key =
      Except.ok
        (if nat_verify message message.length signature signature.length
              (public_key ++
               List.replicate
                 (s.details.length_public_key - public_key.length) 0)
            = _OQS_SUCCESS
         then true else false) := by
  have hmsg : create_string_buffer_init message message.length =
      Except.ok message := by
    simp [create_string_buffer_init]
  have hsig : create_string_buffer_init signature signature.length =
      Except.ok signature := by
    simp [create_string_buffer_init]
  have hpk : create_string_buffer_init public_key s.details.length_public_key =
      Except.ok (public_key ++
        List.replicate (s.details.length_public_key - public_key.length) 0) := by
    simp [create_string_buffer_init, Nat.not_lt.mpr h]
  simp [OQS_SIG.verify, hmsg, hsig, hpk]

/-- Witness for C4 amended: a two-byte key against length_public_key = 2
returns ok true under an always-accepting native routine. -/
theorem C4_verify_boolean_witness :
    OQS_SIG.verify testSig testVerifyOk [1] [2] [9, 9] = Except.ok true := by
  have h := C4_verify_boolean testSig testVerifyOk [1] [2] [9, 9] (by decide)
  simpa using h

/-- Helper: the candidate loop of _load_shared_obj returns the load attempt
on the first truthy-and-existing candidate, and the RuntimeError when no
candidate qualifies. -/
theorem _load_shared_obj_go_first (e : OSEnv) (l : List (Option String)) :
    _load_shared_obj_go e l =
      match l.findSome?
        (fun p => if pathTruthy p && e.path_exists (p.getD "") then p
                  else none) with
      | none => Except.error (PyErr.runtimeError "No liboqs.so found!")
      | some s =>
          match e.load_library s with
          | some lib => Except.ok lib
          | none => Except.error PyErr.osError := by
  induction l with
  | nil => rfl
  | cons p rest ih =>
      simp only [_load_shared_obj_go, List.findSome?_cons]
      cases hc : (pathTruthy p && e.path_exists (p.getD "")) with
      | true =>
          cases p with
          | none => simp [pathTruthy] at hc
          | some a => simp
      | false => simpa using ih

/-- C8: the locator builds its candidate list in priority order — the
installation-path environment variable when set, then the operating-system
search result, then the library file name joined to the current directory —
and module initialization loads the first candidate that is non-empty and
exists on disk; when no candidate qualifies it hard-exits with the
"No liboqs shared libraries found" message, and when loading the chosen
candidate raises an OS-level error it hard-exits with the distinct
"Could not load liboqs shared library" message. -/
theorem C8_library_locator (e : OSEnv) (v s lib : String) :
    (e.environ_install_path = some v →
       _load_shared_obj_paths e =
         [some v, e.find_library_oqs,
          some (e.path_join e.curdir (LIBOQS_SHARED_OBJ e))]) ∧
    (e.environ_install_path = none →
       _load_shared_obj_paths e =
         [e.find_library_oqs,
          some (e.path_join e.curdir (LIBOQS_SHARED_OBJ e))]) ∧
    (firstCandidate e = none →
       wrapper_module_init e =
         InitResult.exit "No liboqs shared libraries found") ∧
    (firstCandidate e = some s → e.load_library s = some lib →
       wrapper_module_init e = InitResult.loaded lib) ∧
    (firstCandidate e = some s → e.load_library s = none →
       wrapper_module_init e =
         InitResult.exit "Could not load liboqs shared library") := by
  have hgo := _load_shared_obj_go_first e (_load_shared_obj_paths e)
  refine ⟨?_, ?_, ?_, ?_, ?_⟩
  · intro h
    simp [_load_shared_obj_paths, h]
  · intro h
    simp [_load_shared_obj_paths, h]
  · intro h
    unfold firstCandidate at h
    have hres : _load_shared_obj e =
        Except.error (PyErr.runtimeError "No liboqs.so found!") := by
      rw [_load_shared_obj, hgo, h]
    rw [wrapper_module_init, hres]
  · intro h hload
    unfold firstCandidate at h
    have hres : _load_shared_obj e = Except.ok lib := by
      rw [_load_shared_obj, hgo, h]
      simp [hload]
    rw [wrapper_module_init, hres]
  · intro h hload
    unfold firstCandidate at h
    have hres : _load_shared_obj e = Except.error PyErr.osError := by
      rw [_load_shared_obj, hgo, h]
      simp [hload]
    rw [wrapper_module_init, hres]

/-- A concrete operating-system surface: the environment variable points at
an existing library file, find_library finds nothing, and loading the
environment path succeeds. -/
def testEnv : OSEnv :=
  { is_windows := false,
    environ_install_path := some "/opt/oqs/liboqs.so",
    find_library_oqs := none,
    curdir := ".",
    path_join := fun a b => a ++ "/" ++ b,
    path_exists := fun p => p == "/opt/oqs/liboqs.so",
    load_library := fun p =>
      if p == "/opt/oqs/liboqs.so" then some "liboqs-handle" else none }

/-- Witness for C8: on the concrete surface, initialization loads the library
found through the environment variable. -/
theorem C8_library_locator_witness :
    wrapper_module_init testEnv = InitResult.loaded "liboqs-handle" := by
  have h := C8_library_locator testEnv "/opt/oqs/liboqs.so"
    "/opt/oqs/liboqs.so" "liboqs-handle"
  exact h.2.2.2.1 rfl rfl
